import Mathlib

/-!
Shallow embedding of the bounded-concurrency batch pipeline of the
repository (src/search.py, src/embed.py, src/db.py).

Python strings that matter for truncation are modelled as `List Char`;
exception payloads are Lean `String`s.  Remote transports and
`datetime.strptime` are external collaborators and appear as function
parameters.  Machine behaviour that the claims depend on (the tenacity
retry loop, the asyncio semaphore discipline, the `as_completed` driver
loop) is embedded explicitly below, each definition next to a comment
naming the source lines it translates.
-/

/-- Exceptions raised by the remote calls, as the Python code can observe
them.  `httpTimeout`, `httpConnectError` and `httpStatusError` model the
httpx exception hierarchy (all three are subclasses of `httpx.HTTPError`);
`valueError` models `ValueError` (raised e.g. by `search` for a missing
`BRAVE_API_KEY`, src/search.py line 43); `typeError` models `TypeError`
(raised e.g. by tuple-unpacking `None`); `otherError` is any other
exception. -/
inductive PyExc : Type where
  | httpTimeout : PyExc
  | httpConnectError : PyExc
  | httpStatusError (code : Nat) : PyExc
  | valueError (msg : String) : PyExc
  | typeError (msg : String) : PyExc
  | otherError (name : String) : PyExc
deriving DecidableEq

/-- Truth of `isinstance(e, (httpx.HTTPError, httpx.RequestError))`: the
predicate used by the `retry=` argument of `crawl_url` (src/db.py lines
124-131).  In httpx, `RequestError` (timeouts, connection errors) and
`HTTPStatusError` (every non-2xx status raised by `raise_for_status`,
4xx included) are both subclasses of `HTTPError`. -/
def isHttpxError : PyExc → Bool
  | .httpTimeout => true
  | .httpConnectError => true
  | .httpStatusError _ => true
  | _ => false

/-- Transient errors in the sense of the specification: network timeout,
connection error, HTTP 5xx, or rate-limit (HTTP 429) response.  The Python
code itself never computes this classification; it is needed to state the
claims that speak about transient versus fatal errors. -/
def isTransientError : PyExc → Bool
  | .httpTimeout => true
  | .httpConnectError => true
  | .httpStatusError code => (500 ≤ code && code < 600) || code == 429
  | _ => false

/-- Result of running a tenacity-decorated coroutine: `ok v a` is a success
on attempt `a`; `retryError e a` models tenacity raising `RetryError` when
the stop condition fires after attempt `a` failed with `e`;
`raised e a` models the original exception propagating because the retry
predicate rejected it; `spent a` is fuel exhaustion of the embedding
(reachable only when the model is given too little fuel, never by the
bounded policies below). -/
inductive RunResult (α : Type) : Type where
  | ok (v : α) (attempts : Nat) : RunResult α
  | retryError (e : PyExc) (attempts : Nat) : RunResult α
  | raised (e : PyExc) (attempts : Nat) : RunResult α
  | spent (attempts : Nat) : RunResult α
deriving DecidableEq

/-- Stop condition `tenacity.stop_after_attempt m`: stop once the attempt
number that just failed has reached `m`. -/
def stop_after_attempt (m : Nat) (attemptNumber : Nat) : Bool :=
  m ≤ attemptNumber

/-- Stop condition of a retry decorator with no `stop=` argument
(src/embed.py line 27, src/db.py line 208): never stop. -/
def stop_never (_ : Nat) : Bool :=
  false

/-- Retry predicate of a retry decorator with no `retry=` argument
(src/search.py line 33, src/embed.py line 26, src/db.py line 207):
tenacity retries every exception. -/
def retry_any (_ : PyExc) : Bool :=
  true

/-- Retry predicate `retry_if_exception_type(httpx.HTTPError) |
retry_if_exception_type(httpx.RequestError)` of `crawl_url`
(src/db.py lines 127-130). -/
def retry_if_httpx (e : PyExc) : Bool :=
  isHttpxError e

/-- The tenacity retry loop.  `cap a` is the outcome of attempt number `a`
(attempt numbers are 1-based, as in tenacity).  After a failed attempt the
retry predicate is consulted first (a rejected exception propagates), then
the stop condition (tenacity raises `RetryError` carrying the last
exception), otherwise the call is re-attempted.  `fuel` bounds the
recursion of the embedding only. -/
def tenacityRun {α : Type} (stop : Nat → Bool) (retryPred : PyExc → Bool)
    (cap : Nat → Except PyExc α) : Nat → Nat → RunResult α
  | 0, attempt => RunResult.spent attempt
  | fuel+1, attempt =>
    match cap attempt with
    | Except.ok v => RunResult.ok v attempt
    | Except.error e =>
      if retryPred e then
        if stop attempt then RunResult.retryError e attempt
        else tenacityRun stop retryPred cap fuel (attempt+1)
      else RunResult.raised e attempt

/-- Backoff `tenacity.wait_exponential(multiplier, min=lo, max=hi)`: the
wait after failed attempt `a` is `multiplier * 2^(a-1)` clamped into
`[lo, hi]` (tenacity computes `max(max(0, min), min(result, max))`). -/
def wait_exponential (multiplier lo hi : Nat) (attemptNumber : Nat) : Nat :=
  max (max 0 lo) (min (multiplier * 2 ^ (attemptNumber - 1)) hi)

/-- The waits tenacity sleeps during a run: one wait is recorded after each
failed attempt that will be retried, mirroring the branch structure of
`tenacityRun`. -/
def tenacityWaits {α : Type} (stop : Nat → Bool) (retryPred : PyExc → Bool)
    (wait : Nat → Nat) (cap : Nat → Except PyExc α) : Nat → Nat → List Nat
  | 0, _ => []
  | fuel+1, attempt =>
    match cap attempt with
    | Except.ok _ => []
    | Except.error e =>
      if retryPred e then
        if stop attempt then []
        else wait attempt :: tenacityWaits stop retryPred wait cap fuel (attempt+1)
      else []

/-- Retry policy of `search` (src/search.py lines 33-37):
`stop_after_attempt(6)`, `wait_exponential(multiplier=1, min=4, max=10)`,
and no retry predicate, so every exception is retried. -/
def searchRetryPolicy {α : Type} (cap : Nat → Except PyExc α) : RunResult α :=
  tenacityRun (stop_after_attempt 6) retry_any cap 6 1

/-- Waits slept by the `search` retry policy during a run. -/
def searchRetryWaits {α : Type} (cap : Nat → Except PyExc α) : List Nat :=
  tenacityWaits (stop_after_attempt 6) retry_any (wait_exponential 1 4 10) cap 6 1

/-- Retry policy of `crawl_url` (src/db.py lines 124-131):
`stop_after_attempt(6)`, `wait_exponential(multiplier=1, min=4, max=10)`,
retrying only httpx errors. -/
def crawlRetryPolicy {α : Type} (cap : Nat → Except PyExc α) : RunResult α :=
  tenacityRun (stop_after_attempt 6) retry_if_httpx cap 6 1

/-- Retry policy of `embed` (src/embed.py lines 26-30): no stop condition
(the `stop=` line is commented out), `wait_exponential_jitter`, no retry
predicate.  The jitter only perturbs sleep durations, which this claim set
never inspects for the unbounded policies. -/
def embedRetryPolicy {α : Type} (fuel : Nat) (cap : Nat → Except PyExc α) :
    RunResult α :=
  tenacityRun stop_never retry_any cap fuel 1

/-- Retry policy of `expand_content` (src/db.py lines 207-211): identical
shape to `embed`, again with no stop condition and no retry predicate. -/
def expandRetryPolicy {α : Type} (fuel : Nat) (cap : Nat → Except PyExc α) :
    RunResult α :=
  tenacityRun stop_never retry_any cap fuel 1

/-- Capability that fails with `e` on attempts `1..k` and succeeds with `v`
from attempt `k+1` on: the test capability of the retry claims. -/
def failsThenSucceeds {α : Type} (k : Nat) (e : PyExc) (v : α) :
    Nat → Except PyExc α :=
  fun attempt => if attempt ≤ k then Except.error e else Except.ok v

/-- Capability that fails with `e` on every attempt. -/
def alwaysFails {α : Type} (e : PyExc) : Nat → Except PyExc α :=
  fun _ => Except.error e

/-- Delay sequence the specification expects for `k` retries under the
bounded policy: the wait after each of the failed attempts `1..k`. -/
def retryDelays (k : Nat) : List Nat :=
  (List.range' 1 k).map (wait_exponential 1 4 10)

/-- Terminal outcome seen by the driver for one item: `some v` when the
retried call succeeded, `none` when any exception escaped the retry layer
(the `except Exception` branch of `process_entry`). -/
def outcomeToOption {α : Type} : RunResult α → Option α
  | RunResult.ok v _ => some v
  | _ => none

/-- Task executor `process_entry` of src/search.py lines 82-91 (src/embed.py
lines 38-47 is structurally identical): runs the retried capability under
the semaphore and converts every escaping exception into `(index, None)`. -/
def process_entry {α : Type} (index : Nat) (cap : Nat → Except PyExc α) :
    Nat × Option α :=
  (index, outcomeToOption (searchRetryPolicy cap))

/-- Naive datetime value produced by `datetime.strptime` with format
string `%Y-%m-%dT%H:%M:%S`. -/
structure PyDateTime : Type where
  year : Nat
  month : Nat
  day : Nat
  hour : Nat
  minute : Nat
  second : Nat
deriving DecidableEq

/-- One entry of the `web.results` array of the Brave search response, with
every field optional (the Python code reads each with `item.get(...)` or an
`in` test).  The profile dict is modelled as an association list. -/
structure RawItem : Type where
  title : Option (List Char)
  url : Option (List Char)
  description : Option (List Char)
  page_age : Option (List Char)
  profile : Option (List (List Char × List Char))
  language : Option (List Char)
  type : Option (List Char)
  subtype : Option (List Char)
deriving DecidableEq

/-- The `SearchResult` dataclass of src/search.py lines 21-30. -/
structure SearchResult : Type where
  title : List Char
  url : List Char
  description : List Char
  page_age : Option PyDateTime
  profile : List (List Char × List Char)
  language : List Char
  type : List Char
  subtype : List Char
deriving DecidableEq

/-- Construction of one `SearchResult` from one response item
(src/search.py lines 59-77).  `strp` is `datetime.strptime` at the fixed
format, returning `none` where Python raises `ValueError`; the
`try/except ValueError: pass` around it is exactly `Option.bind`: an absent
or unparseable `page_age` leaves the field `None` and the record is still
built, every other field read with a `.get(..., default)`. -/
def parseItem (strp : List Char → Option PyDateTime) (item : RawItem) :
    SearchResult :=
  { title := item.title.getD []
    url := item.url.getD []
    description := item.description.getD []
    page_age := item.page_age.bind strp
    profile := item.profile.getD []
    language := item.language.getD []
    type := item.type.getD []
    subtype := item.subtype.getD [] }

/-- Response post-processing of `search` (src/search.py line 59): only the
first 8 entries of `web.results` are kept, each parsed into a
`SearchResult`. -/
def searchParse (strp : List Char → Option PyDateTime)
    (webResults : List RawItem) : List SearchResult :=
  (webResults.take 8).map (parseItem strp)

/-- Truth value of Python `not api_key` for `api_key =
os.environ.get("BRAVE_API_KEY")`: true when the variable is unset or empty
(src/search.py lines 41-42). -/
def credentialMissing (apiKey : Option (List Char)) : Bool :=
  match apiKey with
  | none => true
  | some s => s.isEmpty

/-- Message of the `ValueError` raised for a missing credential
(src/search.py line 43). -/
def keyErrMsg : String :=
  "BRAVE_API_KEY environment variable is not set"

/-- Body of one `search` call (src/search.py lines 38-79): truncate the
query to 128 characters, check the credential, issue the request through
the transport (whose `Except` also covers `raise_for_status`), and parse
the response.  `strp` and `transport` stand for the external
collaborators. -/
def search (strp : List Char → Option PyDateTime)
    (apiKey : Option (List Char))
    (transport : List Char → Except PyExc (List RawItem))
    (query : List Char) : Except PyExc (List SearchResult) :=
  let q := query.take 128
  if credentialMissing apiKey then
    Except.error (PyExc.valueError keyErrMsg)
  else
    match transport q with
    | Except.error e => Except.error e
    | Except.ok webResults => Except.ok (searchParse strp webResults)

/-- State of the `main` completion loop of src/search.py lines 119-132
(src/embed.py lines 71-85 identical): the pre-allocated results list, the
`done_so_far` counter, and the partial snapshots written so far, each
tagged with the `done_so_far` value at which it was written. -/
structure DriverState (α : Type) : Type where
  results : List (Option α)
  done_so_far : Nat
  saves : List (Nat × List (Option α))
deriving DecidableEq

/-- One iteration of `for task in asyncio.as_completed(tasks)`
(src/search.py lines 122-130): store the completed result at its index,
increment `done_so_far`, and write a partial snapshot exactly when
`(done_so_far + 1) % save_interval == 0`. -/
def driverStep {α : Type} (save_interval : Nat) (s : DriverState α)
    (c : Nat × Option α) : DriverState α :=
  let results := s.results.set c.1 c.2
  let done := s.done_so_far + 1
  if (done + 1) % save_interval == 0 then
    { results := results, done_so_far := done,
      saves := s.saves ++ [(done, results)] }
  else
    { results := results, done_so_far := done, saves := s.saves }

/-- The whole completion loop of `main`: results pre-allocated to
`[None] * n`, then one `driverStep` per completed task, in completion
order.  `completions` is the list of `(index, result)` pairs in the order
`asyncio.as_completed` yields them. -/
def runDriver {α : Type} (save_interval n : Nat)
    (completions : List (Nat × Option α)) : DriverState α :=
  completions.foldl (driverStep save_interval)
    { results := List.replicate n none, done_so_far := 0, saves := [] }

/-- The `(index, result)` pairs produced by the spawned tasks
`[process_entry(i, entry, semaphore) for i, entry in enumerate(data)]`
(src/search.py lines 114-117): task `i` yields `process_entry i (caps i)`,
where `caps i` is item `i`'s capability.  `asyncio.as_completed` delivers a
permutation of this list. -/
def canonicalCompletions {α : Type} (n : Nat)
    (caps : Nat → Nat → Except PyExc α) : List (Nat × Option α) :=
  (List.range n).map (fun i => process_entry i (caps i))

/-- Phase of one work item with respect to the shared
`asyncio.Semaphore`: `pending` before `async with semaphore` grants a
slot, `inFlight` while the slot is held (the retried remote call runs
here), `finished ok` once the `async with` block has been exited — which
releases the slot on every exit path, `ok = false` being the exception
path of `process_entry` / `process_url`. -/
inductive ItemPhase : Type where
  | pending : ItemPhase
  | inFlight : ItemPhase
  | finished (ok : Bool) : ItemPhase
deriving DecidableEq

/-- Truth of the item currently holding a semaphore slot. -/
def ItemPhase.isInFlight : ItemPhase → Bool
  | ItemPhase.inFlight => true
  | _ => false

/-- Truth of the item having released its slot. -/
def ItemPhase.isFinished : ItemPhase → Bool
  | ItemPhase.finished _ => true
  | _ => false

/-- Truth of the item having ever acquired a slot. -/
def ItemPhase.isStarted : ItemPhase → Bool
  | ItemPhase.pending => false
  | _ => true

/-- Number of acquired-but-unreleased semaphore slots in a batch state
(one `ItemPhase` per work item). -/
def inFlightCount (s : List ItemPhase) : Nat :=
  s.countP ItemPhase.isInFlight

/-- Number of slot acquisitions performed so far. -/
def startedCount (s : List ItemPhase) : Nat :=
  s.countP ItemPhase.isStarted

/-- Number of slot releases performed so far. -/
def finishedCount (s : List ItemPhase) : Nat :=
  s.countP ItemPhase.isFinished

/-- Scheduler step of the batch under `asyncio.Semaphore(N)`
(src/search.py lines 84-91 and 114): `acquire` admits a pending item only
while fewer than `N` slots are held (the semaphore counter is positive);
`finish` ends an in-flight item — successfully or via the `except` branch —
and releases its slot, which is what `async with semaphore` guarantees on
every exit path. -/
inductive SemStep (N : Nat) : List ItemPhase → List ItemPhase → Prop where
  | acquire (s : List ItemPhase) (i : Nat)
      (hp : s[i]? = some ItemPhase.pending) (hn : inFlightCount s < N) :
      SemStep N s (s.set i ItemPhase.inFlight)
  | finish (s : List ItemPhase) (i : Nat) (ok : Bool)
      (hp : s[i]? = some ItemPhase.inFlight) :
      SemStep N s (s.set i (ItemPhase.finished ok))

/-- Reflexive-transitive closure of `SemStep`: the states a batch run can
reach. -/
inductive SemReach (N : Nat) : List ItemPhase → List ItemPhase → Prop where
  | refl (s : List ItemPhase) : SemReach N s s
  | tail {s t u : List ItemPhase} (h : SemReach N s t) (hstep : SemStep N t u) :
      SemReach N s u

/-- Task `expand_task` of src/db.py lines 227-234: returns the tuple
`(id, result)` on success and — unlike its siblings `process_entry` —
returns bare `None` on any exception. -/
def expand_task (id : Nat) (callResult : Except PyExc String) :
    Option (Nat × String) :=
  match callResult with
  | Except.ok v => some (id, v)
  | Except.error _ => none

/-- Message of the `TypeError` Python raises for
`news_id, content = None`. -/
def unpackErrMsg : String :=
  "cannot unpack non-iterable NoneType"

/-- Completion loop of `expand` (src/db.py lines 255-264): each completed
task is unpacked with `news_id, content = await task` and inserted into
`news_expanded`.  Unpacking a `None` return raises `TypeError`, which
nothing catches: the loop dies there.  The result is the list of rows
inserted before any such crash, paired with the escaping exception when
one occurred. -/
def expandDriver : List (Option (Nat × String)) →
    List (Nat × String) × Option PyExc
  | [] => ([], none)
  | none :: _ => ([], some (PyExc.typeError unpackErrMsg))
  | some p :: rest =>
    let r := expandDriver rest
    (p :: r.1, r.2)

/-- Helper: a capability that fails `k` times and then succeeds is driven to
its success by the retry loop, provided the stop condition stays quiet
through the failures and there is enough fuel. -/
lemma tenacityRun_fts_ok {α : Type} (stop : Nat → Bool) (rp : PyExc → Bool)
    (k : Nat) (e : PyExc) (v : α) (hrp : rp e = true)
    (hstop : ∀ n, n ≤ k → stop n = false) :
    ∀ fuel attempt, attempt ≤ k + 1 → k + 1 < attempt + fuel →
      tenacityRun stop rp (failsThenSucceeds k e v) fuel attempt
        = RunResult.ok v (k + 1) := by
  intro fuel
  induction fuel with
  | zero => intro attempt h1 h2; omega
  | succ fuel ih =>
    intro attempt h1 h2
    by_cases hk : attempt ≤ k
    · have hc : failsThenSucceeds k e v attempt = Except.error e := by
        simp [failsThenSucceeds, hk]
      simp only [tenacityRun, hc, hrp, hstop attempt hk, if_true, if_false]
      exact ih (attempt + 1) (by omega) (by omega)
    · have ha : attempt = k + 1 := by omega
      have hc : failsThenSucceeds k e v attempt = Except.ok v := by
        simp [failsThenSucceeds, hk]
      simp only [tenacityRun, hc]
      rw [ha]

/-- Helper: under `stop_after_attempt m`, a capability that fails with a
retryable `e` on every attempt up to `m` makes the loop raise `RetryError`
after exactly `m` attempts. -/
lemma tenacityRun_allFail {α : Type} (m : Nat) (rp : PyExc → Bool) (e : PyExc)
    (cap : Nat → Except PyExc α) (hrp : rp e = true)
    (hcap : ∀ n, 1 ≤ n → n ≤ m → cap n = Except.error e) :
    ∀ fuel attempt, 1 ≤ attempt → attempt ≤ m → attempt + fuel = m + 1 →
      tenacityRun (stop_after_attempt m) rp cap fuel attempt
        = RunResult.retryError e m := by
  intro fuel
  induction fuel with
  | zero => intro attempt h1 h2 h3; omega
  | succ fuel ih =>
    intro attempt h1 h2 h3
    have hc := hcap attempt h1 h2
    by_cases hm : attempt = m
    · subst hm
      simp [tenacityRun, hc, hrp, stop_after_attempt]
    · have hs : stop_after_attempt m attempt = false := by
        simp only [stop_after_attempt, decide_eq_false_iff_not]
        omega
      simp only [tenacityRun, hc, hrp, hs, if_true, if_false]
      exact ih (attempt + 1) (by omega) (by omega) (by omega)

/-- Helper: the waits recorded while the loop retries a capability that
fails `k` times then succeeds are precisely the backoff values at the
failed attempt numbers. -/
lemma tenacityWaits_fts {α : Type} (stop : Nat → Bool) (rp : PyExc → Bool)
    (w : Nat → Nat) (k : Nat) (e : PyExc) (v : α) (hrp : rp e = true)
    (hstop : ∀ n, n ≤ k → stop n = false) :
    ∀ fuel attempt, attempt ≤ k + 1 → k + 1 < attempt + fuel →
      tenacityWaits stop rp w (failsThenSucceeds k e v) fuel attempt
        = (List.range' attempt (k + 1 - attempt)).map w := by
  intro fuel
  induction fuel with
  | zero => intro attempt h1 h2; omega
  | succ fuel ih =>
    intro attempt h1 h2
    by_cases hk : attempt ≤ k
    · have hc : failsThenSucceeds k e v attempt = Except.error e := by
        simp [failsThenSucceeds, hk]
      have hrange : k + 1 - attempt = (k - attempt) + 1 := by omega
      simp only [tenacityWaits, hc, hrp, hstop attempt hk, if_true, if_false]
      rw [ih (attempt + 1) (by omega) (by omega)]
      have h2r : k + 1 - (attempt + 1) = k - attempt := by omega
      rw [h2r, hrange, List.range'_succ, List.map_cons]
      simp
    · have ha : attempt = k + 1 := by omega
      have hc : failsThenSucceeds k e v attempt = Except.ok v := by
        simp [failsThenSucceeds, hk]
      simp only [tenacityWaits, hc]
      rw [ha]
      simp

/-- Helper: the `search` retry policy turns a capability failing on all of
its 6 permitted attempts into `RetryError` after exactly 6 attempts. -/
lemma searchRetryPolicy_allFail {α : Type} (e : PyExc)
    (cap : Nat → Except PyExc α)
    (hcap : ∀ n, 1 ≤ n → n ≤ 6 → cap n = Except.error e) :
    searchRetryPolicy cap = RunResult.retryError e 6 :=
  tenacityRun_allFail 6 retry_any e cap rfl hcap 6 1 (by omega) (by omega) rfl

/-- Helper: the backoff of the bounded policies is monotone in the attempt
number. -/
lemma wait_exponential_mono (m lo hi : Nat) :
    Monotone (wait_exponential m lo hi) := by
  intro a b hab
  have hpow : m * 2 ^ (a - 1) ≤ m * 2 ^ (b - 1) :=
    Nat.mul_le_mul_left m (Nat.pow_le_pow_right (by norm_num) (by omega))
  exact max_le_max (le_refl _) (min_le_min hpow (le_refl _))

/-- Helper: every backoff value of `wait_exponential 1 4 10` lies in the
configured band `[4, 10]`. -/
lemma wait_exponential_bounds (a : Nat) :
    4 ≤ wait_exponential 1 4 10 a ∧ wait_exponential 1 4 10 a ≤ 10 := by
  unfold wait_exponential
  constructor
  · exact le_trans (by norm_num) (le_max_left _ _)
  · exact max_le (by norm_num) (min_le_right _ _)

/-- Helper: every transient error (timeout, connection error, 5xx, 429) is
an httpx error, hence retryable under the `crawl_url` predicate. -/
lemma transient_isHttpx {e : PyExc} (h : isTransientError e = true) :
    isHttpxError e = true := by
  cases e <;> simp_all [isTransientError, isHttpxError]

/-- Helper: `stop_after_attempt 6` is quiet on attempt numbers below 6. -/
lemma stop6_quiet {k : Nat} (hk : k < 6) :
    ∀ n, n ≤ k → stop_after_attempt 6 n = false := by
  intro n hn
  simp only [stop_after_attempt, decide_eq_false_iff_not]
  omega

/-- C3: under the bounded 6-attempt policy, a capability failing
transiently exactly `k` times then succeeding yields, for `k` below the
cap, ultimate success on attempt `k+1` (so exactly `k` retries) with the
slept delays equal to the non-decreasing backoff sequence bounded in
`[4, 10]`; for `k` at or above the cap the run terminates as `RetryError`
after exactly 6 attempts — converted to a Failed (`none`) outcome — never
exceeding the cap. -/
theorem claim_C3 {α : Type} (k : Nat) (e : PyExc) (v : α)
    (htr : isTransientError e = true) :
    (k < 6 →
      searchRetryPolicy (failsThenSucceeds k e v) = RunResult.ok v (k + 1) ∧
      crawlRetryPolicy (failsThenSucceeds k e v) = RunResult.ok v (k + 1) ∧
      searchRetryWaits (failsThenSucceeds k e v) = retryDelays k ∧
      (retryDelays k).length = k ∧
      List.Pairwise (· ≤ ·) (retryDelays k) ∧
      (∀ d ∈ retryDelays k, 4 ≤ d ∧ d ≤ 10)) ∧
    (6 ≤ k →
      searchRetryPolicy (failsThenSucceeds k e v) = RunResult.retryError e 6 ∧
      crawlRetryPolicy (failsThenSucceeds k e v) = RunResult.retryError e 6 ∧
      outcomeToOption (searchRetryPolicy (failsThenSucceeds k e v)) = none) := by
  constructor
  · intro hk
    refine ⟨?_, ?_, ?_, ?_, ?_, ?_⟩
    · exact tenacityRun_fts_ok (stop_after_attempt 6) retry_any k e v rfl
        (stop6_quiet hk) 6 1 (by omega) (by omega)
    · exact tenacityRun_fts_ok (stop_after_attempt 6) retry_if_httpx k e v
        (by simp [retry_if_httpx, transient_isHttpx htr])
        (stop6_quiet hk) 6 1 (by omega) (by omega)
    · have h := tenacityWaits_fts (stop_after_attempt 6) retry_any
        (wait_exponential 1 4 10) k e v rfl (stop6_quiet hk) 6 1
        (by omega) (by omega)
      simpa [searchRetryWaits, retryDelays] using h
    · simp [retryDelays]
    · exact (List.pairwise_lt_range' 1 k).map _
        (fun a b hab => wait_exponential_mono 1 4 10 (le_of_lt hab))
    · intro d hd
      obtain ⟨a, _, rfl⟩ := List.mem_map.mp hd
      exact wait_exponential_bounds a
  · intro hk
    have hcap : ∀ n, 1 ≤ n → n ≤ 6 → failsThenSucceeds k e v n = Except.error e := by
      intro n h1 h6
      simp only [failsThenSucceeds, if_pos (by omega : n ≤ k)]
    refine ⟨searchRetryPolicy_allFail e _ hcap, ?_, ?_⟩
    · exact tenacityRun_allFail 6 retry_if_httpx e _
        (by simp [retry_if_httpx, transient_isHttpx htr]) hcap 6 1
        (by omega) (by omega) rfl
    · rw [searchRetryPolicy_allFail e _ hcap]
      rfl

/-- Witness for C3 at concrete inputs: two transient timeouts then success
gives success on attempt 3 with delays `[4, 4]`; nine transient failures
give `RetryError` after exactly 6 attempts. -/
theorem claim_C3_witness :
    searchRetryPolicy (failsThenSucceeds 2 PyExc.httpTimeout (7 : Nat))
      = RunResult.ok 7 3 ∧
    searchRetryWaits (failsThenSucceeds 2 PyExc.httpTimeout (7 : Nat))
      = retryDelays 2 ∧
    retryDelays 2 = [4, 4] ∧
    searchRetryPolicy (failsThenSucceeds 9 PyExc.httpTimeout (7 : Nat))
      = RunResult.retryError PyExc.httpTimeout 6 :=
  ⟨((claim_C3 2 PyExc.httpTimeout 7 (by decide)).1 (by decide)).1,
   ((claim_C3 2 PyExc.httpTimeout 7 (by decide)).1 (by decide)).2.2.1,
   by decide,
   ((claim_C3 9 PyExc.httpTimeout 7 (by decide)).2 (by decide)).1⟩

/-- C4 counterexample: a capability that always fails with a fatal HTTP 401
is nonetheless retried by both cited retry policies — `search` has no
retry predicate at all, and `crawl_url` retries every `httpx.HTTPError`,
of which `HTTPStatusError` (4xx included) is a subclass — so the run ends
after 6 attempts, not after exactly 1 with zero retries as the claim
states. -/
theorem claim_C4_counterexample :
    searchRetryPolicy (alwaysFails (PyExc.httpStatusError 401) : Nat → Except PyExc Unit)
      = RunResult.retryError (PyExc.httpStatusError 401) 6 ∧
    crawlRetryPolicy (alwaysFails (PyExc.httpStatusError 401) : Nat → Except PyExc Unit)
      = RunResult.retryError (PyExc.httpStatusError 401) 6 ∧
    isTransientError (PyExc.httpStatusError 401) = false ∧
    (6 : Nat) ≠ 1 :=
  ⟨by decide, by decide, by decide, by decide⟩

/-- C4 amended: the retry policies do not classify fatal errors for
short-circuit.  Under the `search` policy every fatally-failing call is
retried to the 6-attempt cap and the item's Outcome is Failed (`none`)
after 6 attempts; under the `crawl_url` policy an error outside the httpx
hierarchy propagates immediately with zero retries (one attempt), while a
fatal httpx error such as HTTP 401 is retried to the cap like a transient
one.  In every case the item's Outcome is Failed. -/
theorem claim_C4_amended {α : Type} (e : PyExc) (i : Nat)
    (hnothttpx : isHttpxError e = false) :
    crawlRetryPolicy (alwaysFails e : Nat → Except PyExc α)
      = RunResult.raised e 1 ∧
    searchRetryPolicy (alwaysFails e : Nat → Except PyExc α)
      = RunResult.retryError e 6 ∧
    process_entry i (alwaysFails e : Nat → Except PyExc α) = (i, none) ∧
    crawlRetryPolicy (alwaysFails (PyExc.httpStatusError 401) : Nat → Except PyExc Unit)
      = RunResult.retryError (PyExc.httpStatusError 401) 6 := by
  have hsearch : searchRetryPolicy (alwaysFails e : Nat → Except PyExc α)
      = RunResult.retryError e 6 :=
    searchRetryPolicy_allFail e _ (fun _ _ _ => rfl)
  refine ⟨?_, hsearch, ?_, by decide⟩
  · simp [crawlRetryPolicy, tenacityRun, alwaysFails, retry_if_httpx, hnothttpx]
  · simp only [process_entry, hsearch]
    rfl

/-- Witness for C4 amended at a concrete fatal non-httpx error. -/
theorem claim_C4_amended_witness :
    crawlRetryPolicy (alwaysFails (PyExc.valueError "bad input") : Nat → Except PyExc Unit)
      = RunResult.raised (PyExc.valueError "bad input") 1 ∧
    process_entry 0 (alwaysFails (PyExc.valueError "bad input") : Nat → Except PyExc Unit)
      = (0, none) :=
  ⟨(claim_C4_amended (PyExc.valueError "bad input") 0 (by decide)).1,
   (claim_C4_amended (PyExc.valueError "bad input") 0 (by decide)).2.2.1⟩

/-- C8: the unbounded-with-jitter policies of `embed` and `expand_content`
have no attempt cap: for every number `k` of consecutive transient
failures followed by a success, the run returns that success (on attempt
`k+1`), for any fuel large enough to let the embedding reach it. -/
theorem claim_C8 {α : Type} (k fuel : Nat) (e : PyExc) (v : α)
    (htr : isTransientError e = true) (hfuel : k < fuel) :
    embedRetryPolicy fuel (failsThenSucceeds k e v) = RunResult.ok v (k + 1) ∧
    expandRetryPolicy fuel (failsThenSucceeds k e v) = RunResult.ok v (k + 1) := by
  constructor <;>
    exact tenacityRun_fts_ok stop_never retry_any k e v rfl (fun _ _ => rfl)
      fuel 1 (by omega) (by omega)

/-- Witness for C8: nine consecutive rate-limit failures — beyond the
bounded policies' cap of 6 — still end in success under the unbounded
policy. -/
theorem claim_C8_witness :
    embedRetryPolicy 10 (failsThenSucceeds 9 (PyExc.httpStatusError 429) (3 : Nat))
      = RunResult.ok 3 10 ∧
    expandRetryPolicy 10 (failsThenSucceeds 9 (PyExc.httpStatusError 429) (3 : Nat))
      = RunResult.ok 3 10 :=
  claim_C8 9 10 (PyExc.httpStatusError 429) 3 (by decide) (by decide)

/-- Helper: each driver iteration stores the completed result at its own
index, whether or not a snapshot is written. -/
lemma driverStep_results {α : Type} (si : Nat) (s : DriverState α)
    (c : Nat × Option α) :
    (driverStep si s c).results = s.results.set c.1 c.2 := by
  simp only [driverStep]
  split <;> rfl

/-- Helper: each driver iteration increments `done_so_far` by one. -/
lemma driverStep_done {α : Type} (si : Nat) (s : DriverState α)
    (c : Nat × Option α) :
    (driverStep si s c).done_so_far = s.done_so_far + 1 := by
  simp only [driverStep]
  split <;> rfl

/-- Helper: each driver iteration appends a snapshot exactly when the
source's `(done_so_far + 1) % save_interval == 0` test fires. -/
lemma driverStep_saves {α : Type} (si : Nat) (s : DriverState α)
    (c : Nat × Option α) :
    (driverStep si s c).saves
      = s.saves ++ (if (s.done_so_far + 1 + 1) % si == 0
          then [(s.done_so_far + 1, s.results.set c.1 c.2)] else []) := by
  simp only [driverStep]
  split <;> simp_all

/-- Helper: the results component of the driver loop is the fold that
stores each completion at its index. -/
lemma runDriver_results_foldl {α : Type} (si : Nat) :
    ∀ (cs : List (Nat × Option α)) (s : DriverState α),
      (cs.foldl (driverStep si) s).results
        = cs.foldl (fun (a : List (Option α)) c => a.set c.1 c.2) s.results := by
  intro cs
  induction cs with
  | nil => intro s; rfl
  | cons c rest ih =>
    intro s
    simp only [List.foldl_cons]
    rw [ih, driverStep_results]

/-- Helper: index-wise storing never changes the length of the results
list. -/
lemma foldl_set_length {α : Type} :
    ∀ (cs : List (Nat × Option α)) (a : List (Option α)),
      (cs.foldl (fun (a : List (Option α)) c => a.set c.1 c.2) a).length
        = a.length := by
  intro cs
  induction cs with
  | nil => intro a; rfl
  | cons c rest ih =>
    intro a
    simp only [List.foldl_cons]
    rw [ih, List.length_set]

/-- Helper: a slot whose index never occurs among the stored completions is
left untouched by the fold. -/
lemma foldl_set_not_mem {α : Type} :
    ∀ (cs : List (Nat × Option α)) (a : List (Option α)) (i : Nat),
      i ∉ cs.map Prod.fst →
      (cs.foldl (fun (a : List (Option α)) c => a.set c.1 c.2) a)[i]? = a[i]? := by
  intro cs
  induction cs with
  | nil => intro a i _; rfl
  | cons c rest ih =>
    intro a i hi
    simp only [List.map_cons, List.mem_cons, not_or] at hi
    simp only [List.foldl_cons]
    rw [ih _ i hi.2, List.getElem?_set_ne (fun h => hi.1 h.symm)]

/-- Helper: when the stored indices are pairwise distinct, the fold leaves
slot `i` holding exactly the value completed for index `i`. -/
lemma foldl_set_mem {α : Type} :
    ∀ (cs : List (Nat × Option α)) (a : List (Option α)) (i : Nat)
      (v : Option α), (cs.map Prod.fst).Nodup → (i, v) ∈ cs →
      i < a.length →
      (cs.foldl (fun (a : List (Option α)) c => a.set c.1 c.2) a)[i]? = some v := by
  intro cs
  induction cs with
  | nil => intro a i v _ hmem _; simp at hmem
  | cons c rest ih =>
    intro a i v hnd hmem hlen
    simp only [List.map_cons, List.nodup_cons] at hnd
    simp only [List.foldl_cons]
    rcases List.mem_cons.mp hmem with heq | htail
    · have hkey : c.1 = i := by rw [← heq]
      have hfst : i ∉ rest.map Prod.fst := by
        rw [← hkey]; exact hnd.1
      rw [foldl_set_not_mem rest _ i hfst, ← heq,
        List.getElem?_set_self (by simpa [hkey] using hlen)]
    · exact ih _ i v hnd.2 htail (by simpa using hlen)

/-- Helper: the key of each spawned task is its own index, so the canonical
completion list has keys `0..n-1`. -/
lemma canonicalCompletions_keys {α : Type} (n : Nat)
    (caps : Nat → Nat → Except PyExc α) :
    (canonicalCompletions n caps).map Prod.fst = List.range n := by
  unfold canonicalCompletions
  rw [List.map_map]
  have hfun : (Prod.fst ∘ fun i => process_entry i (caps i)) = fun i => i := by
    funext i
    rfl
  rw [hfun]
  exact List.map_id _

/-- C1: for every batch size, checkpoint interval and completion order (any
permutation of the spawned tasks' `(index, outcome)` pairs), the driver's
final results list — which `save_results` then serializes as the final
sink — has exactly `n` slots, and slot `i` holds the outcome of input item
`i`, namely what the retried capability of item `i` produced. -/
theorem claim_C1 {α : Type} (save_interval n : Nat)
    (caps : Nat → Nat → Except PyExc α)
    (completions : List (Nat × Option α))
    (hperm : completions.Perm (canonicalCompletions n caps)) :
    (runDriver save_interval n completions).results.length = n ∧
    ∀ i, i < n →
      (runDriver save_interval n completions).results[i]?
        = some (outcomeToOption (searchRetryPolicy (caps i))) := by
  have hres : (runDriver save_interval n completions).results
      = completions.foldl (fun (a : List (Option α)) c => a.set c.1 c.2)
          (List.replicate n none) :=
    runDriver_results_foldl save_interval completions _
  constructor
  · rw [hres, foldl_set_length, List.length_replicate]
  · intro i hi
    have hnd : (completions.map Prod.fst).Nodup := by
      rw [(hperm.map Prod.fst).nodup_iff, canonicalCompletions_keys]
      exact List.nodup_range n
    have hmem : (i, outcomeToOption (searchRetryPolicy (caps i))) ∈ completions := by
      rw [hperm.mem_iff]
      exact List.mem_map.mpr ⟨i, List.mem_range.mpr hi, rfl⟩
    rw [hres]
    exact foldl_set_mem completions _ i _ hnd hmem
      (by simpa using hi)

/-- Witness for C1: a two-item batch delivered in reversed completion
order still puts item 0's success in slot 0 and item 1's failure in
slot 1. -/
theorem claim_C1_witness :
    (runDriver 100 2
      [(1, (none : Option Nat)), (0, some 10)]).results[0]? = some (some 10) ∧
    (runDriver 100 2
      [(1, (none : Option Nat)), (0, some 10)]).results[1]? = some none ∧
    (runDriver 100 2
      [(1, (none : Option Nat)), (0, some 10)]).results.length = 2 := by
  have h := claim_C1 100 2
    (fun i _ => if i = 0 then Except.ok 10 else Except.error (PyExc.httpStatusError 500))
    [(1, (none : Option Nat)), (0, some 10)] (by decide)
  exact ⟨by rw [h.2 0 (by omega)]; decide, by rw [h.2 1 (by omega)]; decide, h.1⟩

/-- Completed-counts at which the snapshot condition of the code fires
during `len` further completions after `done` items have already
completed: the counts `c` in `done+1 .. done+len` with `(c+1)` divisible
by the interval (the code tests `(done_so_far + 1) % save_interval == 0`
after incrementing `done_so_far`). -/
def writeCounts (save_interval done : Nat) : Nat → List Nat
  | 0 => []
  | len+1 =>
    (if (done + 1 + 1) % save_interval == 0 then [done + 1] else [])
      ++ writeCounts save_interval (done + 1) len

/-- Helper: the completed-counts at which the driver loop writes a
mid-batch snapshot are exactly `writeCounts`. -/
lemma runDriver_saves_foldl {α : Type} (si : Nat) :
    ∀ (cs : List (Nat × Option α)) (s : DriverState α),
      ((cs.foldl (driverStep si) s).saves).map Prod.fst
        = (s.saves.map Prod.fst) ++ writeCounts si s.done_so_far cs.length := by
  intro cs
  induction cs with
  | nil => intro s; simp [writeCounts]
  | cons c rest ih =>
    intro s
    simp only [List.foldl_cons, List.length_cons]
    rw [ih, driverStep_saves, driverStep_done]
    simp only [writeCounts, List.map_append, List.append_assoc]
    by_cases hcond : ((s.done_so_far + 1 + 1) % si == 0)
    · simp [hcond]
    · simp [hcond]

/-- Helper: membership in `writeCounts` is divisibility of the successor
count by the interval, within the window. -/
lemma mem_writeCounts (si : Nat) :
    ∀ (len done c : Nat),
      c ∈ writeCounts si done len
        ↔ done < c ∧ c ≤ done + len ∧ (c + 1) % si = 0 := by
  intro len
  induction len with
  | zero =>
    intro done c
    simp only [writeCounts, List.not_mem_nil, false_iff]
    omega
  | succ len ih =>
    intro done c
    simp only [writeCounts, List.mem_append, ih]
    by_cases hcond : (done + 1 + 1) % si = 0
    · rw [if_pos (by simpa using hcond)]
      simp only [List.mem_singleton]
      constructor
      · rintro (rfl | ⟨h1, h2, h3⟩)
        · exact ⟨by omega, by omega, by omega⟩
        · exact ⟨by omega, by omega, h3⟩
      · rintro ⟨h1, h2, h3⟩
        by_cases hc : c = done + 1
        · exact Or.inl hc
        · exact Or.inr ⟨by omega, by omega, h3⟩
    · rw [if_neg (by simpa using hcond)]
      simp only [List.not_mem_nil, false_or]
      constructor
      · rintro ⟨h1, h2, h3⟩
        exact ⟨by omega, by omega, h3⟩
      · rintro ⟨h1, h2, h3⟩
        have hc : c ≠ done + 1 := by
          intro hceq
          subst hceq
          exact hcond h3
        exact ⟨by omega, by omega, h3⟩

/-- C5 counterexample: with checkpoint interval 2 and a batch of 5 items,
the code writes mid-batch snapshots after completions 1, 3 and 5 — the
first of which is not a whole multiple of the interval — and writes three
mid-batch snapshots, not one. -/
theorem claim_C5_counterexample :
    ((runDriver 2 5
      ([(0, some 0), (1, some 0), (2, some 0), (3, some 0), (4, some 0)]
        : List (Nat × Option Nat))).saves).map Prod.fst = [1, 3, 5] ∧
    1 % 2 ≠ 0 ∧
    ((runDriver 2 5
      ([(0, some 0), (1, some 0), (2, some 0), (3, some 0), (4, some 0)]
        : List (Nat × Option Nat))).saves).length ≠ 1 := by
  refine ⟨by decide, by decide, by decide⟩

/-- C5 amended: after every per-item completion, a mid-batch snapshot of
the full results list is written exactly when the completed count plus one
is a whole multiple of the configured interval (the code increments
`done_so_far` and then tests `(done_so_far + 1) % save_interval == 0`);
in particular, for a batch of 5 items with interval 2 exactly three
mid-batch snapshot writes occur (after completions 1, 3 and 5), in
addition to the final write. -/
theorem claim_C5_amended {α : Type} (save_interval n c : Nat)
    (completions : List (Nat × Option α)) :
    (c ∈ ((runDriver save_interval n completions).saves).map Prod.fst
      ↔ 1 ≤ c ∧ c ≤ completions.length ∧ (c + 1) % save_interval = 0) ∧
    ((runDriver 2 5
      ([(0, some 0), (1, some 0), (2, some 0), (3, some 0), (4, some 0)]
        : List (Nat × Option Nat))).saves).map Prod.fst = [1, 3, 5] := by
  constructor
  · rw [show (runDriver save_interval n completions)
        = completions.foldl (driverStep save_interval)
            { results := List.replicate n none, done_so_far := 0, saves := [] }
        from rfl,
      runDriver_saves_foldl]
    simp only [List.map_nil, List.nil_append]
    rw [mem_writeCounts]
    omega
  · decide

/-- Helper: storing `none` into the all-`none` pre-allocated results list
is the identity. -/
lemma foldl_set_all_none {α : Type} :
    ∀ (cs : List (Nat × Option α)) (n : Nat), (∀ p ∈ cs, p.2 = none) →
      cs.foldl (fun (a : List (Option α)) c => a.set c.1 c.2)
        (List.replicate n none) = List.replicate n none := by
  intro cs
  induction cs with
  | nil => intro n _; rfl
  | cons c rest ih =>
    intro n h
    simp only [List.foldl_cons]
    rw [h c (List.mem_cons_self c rest), List.set_replicate_self]
    exact ih n (fun p hp => h p (List.mem_cons_of_mem c hp))

/-- Completion list of the search batch driver (src/search.py lines
114-117): one spawned task per entry, each calling `search` on its own
query under the shared retry policy and semaphore. -/
def searchBatchCompletions (strp : List Char → Option PyDateTime)
    (apiKey : Option (List Char))
    (transport : List Char → Except PyExc (List RawItem))
    (queries : Nat → List Char) (n : Nat) :
    List (Nat × Option (List SearchResult)) :=
  canonicalCompletions n (fun i _ => search strp apiKey transport (queries i))

/-- C7 counterexample: with the API key absent, a batch of one item is
still dispatched — `main` performs no pre-flight credential check — and
that item's execution observes the missing credential: its `search` call
raises `ValueError`, the classification-free retry policy retries it to
the 6-attempt cap, and the driver then completes normally with a `None`
slot instead of aborting before dispatch. -/
theorem claim_C7_counterexample :
    searchRetryPolicy
        (fun _ => search (fun _ => none) none (fun _ => Except.ok []) [])
      = RunResult.retryError (PyExc.valueError keyErrMsg) 6 ∧
    (runDriver 100 1
        (searchBatchCompletions (fun _ => none) none
          (fun _ => Except.ok []) (fun _ => []) 1)).results = [none] ∧
    (runDriver 100 1
        (searchBatchCompletions (fun _ => none) none
          (fun _ => Except.ok []) (fun _ => []) 1)).done_so_far = 1 := by
  refine ⟨by decide, by decide, by decide⟩

/-- C7 amended: a missing (or empty) API key is not a pre-flight
condition: every work item is dispatched, each item's `search` call raises
the credential `ValueError` which the retry policy — having no
classification predicate — retries to the 6-attempt cap, the task
executor records a Failed (`None`) outcome for the item, and the batch
completes normally with every slot `None` rather than aborting. -/
theorem claim_C7_amended (strp : List Char → Option PyDateTime)
    (apiKey : Option (List Char))
    (transport : List Char → Except PyExc (List RawItem))
    (queries : Nat → List Char) (save_interval n : Nat)
    (hmissing : credentialMissing apiKey = true) :
    (∀ i : Nat,
      searchRetryPolicy (fun _ => search strp apiKey transport (queries i))
        = RunResult.retryError (PyExc.valueError keyErrMsg) 6) ∧
    (∀ i : Nat,
      process_entry i (fun _ => search strp apiKey transport (queries i))
        = (i, none)) ∧
    (runDriver save_interval n
        (searchBatchCompletions strp apiKey transport queries n)).results
      = List.replicate n none := by
  have hcall : ∀ q, search strp apiKey transport q
      = Except.error (PyExc.valueError keyErrMsg) := by
    intro q
    simp [search, hmissing]
  have hpolicy : ∀ i : Nat,
      searchRetryPolicy (fun _ => search strp apiKey transport (queries i))
        = RunResult.retryError (PyExc.valueError keyErrMsg) 6 := by
    intro i
    exact searchRetryPolicy_allFail _ _ (fun _ _ _ => hcall (queries i))
  have hproc : ∀ i : Nat,
      process_entry i (fun _ => search strp apiKey transport (queries i))
        = (i, none) := by
    intro i
    simp only [process_entry, hpolicy i]
    rfl
  refine ⟨hpolicy, hproc, ?_⟩
  rw [show (runDriver save_interval n
        (searchBatchCompletions strp apiKey transport queries n)).results
      = (searchBatchCompletions strp apiKey transport queries n).foldl
          (fun (a : List (Option (List SearchResult))) c => a.set c.1 c.2)
          (List.replicate n none)
    from runDriver_results_foldl save_interval _ _]
  apply foldl_set_all_none
  intro p hp
  obtain ⟨i, _, rfl⟩ := List.mem_map.mp hp
  have := hproc i
  simp only [process_entry] at this ⊢
  exact congrArg Prod.snd this

/-- Witness for C7 amended at a concrete empty environment. -/
theorem claim_C7_amended_witness :
    (runDriver 100 3
        (searchBatchCompletions (fun _ => none) none
          (fun _ => Except.ok []) (fun _ => []) 3)).results
      = List.replicate 3 none ∧
    process_entry 0
        (fun _ => search (fun _ => none) none (fun _ => Except.ok []) [])
      = (0, none) :=
  ⟨(claim_C7_amended (fun _ => none) none (fun _ => Except.ok [])
      (fun _ => []) 100 3 (by decide)).2.2,
   (claim_C7_amended (fun _ => none) none (fun _ => Except.ok [])
      (fun _ => []) 100 3 (by decide)).2.1 0⟩

/-- C6: evaluation of the expansion batch at the claim's failing input — a
batch of 5 items whose item at position 2 fails fatally while the others
succeed.  `expand_task` converts the failure to a bare `None` (not an
`(id, None)` pair), so the driver's tuple unpacking
`news_id, content = await task` raises `TypeError` and the batch aborts:
only the two items completed before the failure are recorded, items 3 and
4 are lost, and an exception escapes — contrary to the claim that every
other item's outcome is recorded and the batch does not abort.  (In
src/search.py the sibling `process_entry` does return `(index, None)` and
the claim holds there; the slip is specific to `expand_task`.) -/
theorem claim_C6_code_evaluation :
    expandDriver
      [expand_task 0 (Except.ok "expanded zero"),
       expand_task 1 (Except.ok "expanded one"),
       expand_task 2 (Except.error (PyExc.valueError "fatal item error")),
       expand_task 3 (Except.ok "expanded three"),
       expand_task 4 (Except.ok "expanded four")]
      = ([(0, "expanded zero"), (1, "expanded one")],
         some (PyExc.typeError unpackErrMsg)) := by
  rfl

/-- Helper: replacing one element of a list changes a `countP` by swapping
the old element's contribution for the new one's. -/
lemma countP_set_add {α : Type} (p : α → Bool) :
    ∀ (l : List α) (i : Nat) (a b : α), l[i]? = some b →
      (l.set i a).countP p + (if p b then 1 else 0)
        = l.countP p + (if p a then 1 else 0) := by
  intro l
  induction l with
  | nil => intro i a b h; simp at h
  | cons x xs ih =>
    intro i a b h
    cases i with
    | zero =>
      simp only [List.getElem?_cons_zero, Option.some.injEq] at h
      subst h
      simp only [List.set_cons_zero, List.countP_cons]
      omega
    | succ i =>
      simp only [List.getElem?_cons_succ] at h
      simp only [List.set_cons_succ, List.countP_cons]
      have := ih i a b h
      omega

/-- Helper: reachability preserves the number of work items. -/
lemma semReach_length {N : Nat} {s t : List ItemPhase}
    (h : SemReach N s t) : t.length = s.length := by
  induction h with
  | refl => rfl
  | tail h hstep ih =>
    cases hstep with
    | acquire i hp hn => rw [List.length_set]; exact ih
    | finish i ok hp => rw [List.length_set]; exact ih

/-- Helper: the semaphore bound is inductive along the step relation. -/
lemma semReach_inFlight_le {N : Nat} {s t : List ItemPhase}
    (h : SemReach N s t) (hs : inFlightCount s ≤ N) :
    inFlightCount t ≤ N := by
  induction h with
  | refl => exact hs
  | tail h hstep ih =>
    cases hstep with
    | acquire i hp hn =>
      have hcount := countP_set_add ItemPhase.isInFlight _ i
        ItemPhase.inFlight ItemPhase.pending hp
      simp [ItemPhase.isInFlight] at hcount
      unfold inFlightCount at *
      omega
    | finish i ok hp =>
      have hcount := countP_set_add ItemPhase.isInFlight _ i
        (ItemPhase.finished ok) ItemPhase.inFlight hp
      simp [ItemPhase.isInFlight] at hcount
      unfold inFlightCount at *
      omega

/-- Helper: in every batch state, the acquisitions performed so far split
exactly into the slots still held and the slots already released — each
acquisition has at most, and once the item finishes exactly, one release. -/
lemma startedCount_split (s : List ItemPhase) :
    startedCount s = inFlightCount s + finishedCount s := by
  unfold startedCount inFlightCount finishedCount
  induction s with
  | nil => rfl
  | cons x xs ih =>
    simp only [List.countP_cons]
    cases x <;>
      simp [ItemPhase.isStarted, ItemPhase.isInFlight, ItemPhase.isFinished] <;>
      omega

/-- C2: in every state reachable by the batch scheduler from the initial
all-pending state, the number of acquired-but-unreleased semaphore slots
never exceeds the configured limit `N`; moreover the acquisitions
performed so far split exactly into held plus released slots — every exit
from the in-flight phase, success or failure, is the release step — and
no work item is created or lost. -/
theorem claim_C2 (N n : Nat) (s : List ItemPhase)
    (hreach : SemReach N (List.replicate n ItemPhase.pending) s) :
    inFlightCount s ≤ N ∧
    startedCount s = inFlightCount s + finishedCount s ∧
    s.length = n := by
  refine ⟨?_, startedCount_split s, ?_⟩
  · apply semReach_inFlight_le hreach
    unfold inFlightCount
    rw [List.countP_replicate]
    simp [ItemPhase.isInFlight]
  · rw [semReach_length hreach, List.length_replicate]

/-- Witness for C2: a concrete two-item run under limit 1 — acquire item
0, finish it exceptionally, acquire item 1, finish it successfully — ends
in a reachable state satisfying the bound and the accounting. -/
theorem claim_C2_witness :
    inFlightCount [ItemPhase.finished false, ItemPhase.finished true] ≤ 1 ∧
    startedCount [ItemPhase.finished false, ItemPhase.finished true]
      = inFlightCount [ItemPhase.finished false, ItemPhase.finished true]
        + finishedCount [ItemPhase.finished false, ItemPhase.finished true] ∧
    ([ItemPhase.finished false, ItemPhase.finished true] : List ItemPhase).length
      = 2 := by
  have h1 : SemStep 1 (List.replicate 2 ItemPhase.pending)
      [ItemPhase.inFlight, ItemPhase.pending] :=
    SemStep.acquire (List.replicate 2 ItemPhase.pending) 0 (by decide) (by decide)
  have h2 : SemStep 1 [ItemPhase.inFlight, ItemPhase.pending]
      [ItemPhase.finished false, ItemPhase.pending] :=
    SemStep.finish [ItemPhase.inFlight, ItemPhase.pending] 0 false (by decide)
  have h3 : SemStep 1 [ItemPhase.finished false, ItemPhase.pending]
      [ItemPhase.finished false, ItemPhase.inFlight] :=
    SemStep.acquire [ItemPhase.finished false, ItemPhase.pending] 1 (by decide)
      (by decide)
  have h4 : SemStep 1 [ItemPhase.finished false, ItemPhase.inFlight]
      [ItemPhase.finished false, ItemPhase.finished true] :=
    SemStep.finish [ItemPhase.finished false, ItemPhase.inFlight] 1 true
      (by decide)
  exact claim_C2 1 2 _
    (SemReach.tail (SemReach.tail (SemReach.tail
      (SemReach.tail (SemReach.refl _) h1) h2) h3) h4)

/-- C9: `search` truncates every query to 128 characters before issuing
the call (so the issued query never exceeds 128 characters), and the
parsed response it returns keeps at most the first 8 result records, each
being the `SearchResult` record — title, url, description, optional
timestamp, profile, language, type, subtype — built from one response
item. -/
theorem claim_C9 (strp : List Char → Option PyDateTime)
    (apiKey : Option (List Char))
    (transport : List Char → Except PyExc (List RawItem))
    (query : List Char) (webResults : List RawItem)
    (hkey : credentialMissing apiKey = false)
    (ht : transport (query.take 128) = Except.ok webResults) :
    search strp apiKey transport query
      = Except.ok (searchParse strp webResults) ∧
    (query.take 128).length ≤ 128 ∧
    (searchParse strp webResults).length ≤ 8 ∧
    ∀ r ∈ searchParse strp webResults,
      ∃ item ∈ webResults.take 8, r = parseItem strp item := by
  refine ⟨?_, ?_, ?_, ?_⟩
  · simp [search, hkey, ht]
  · simp only [List.length_take]
    omega
  · simp only [searchParse, List.length_map, List.length_take]
    omega
  · intro r hr
    obtain ⟨item, hmem, rfl⟩ := List.mem_map.mp hr
    exact ⟨item, hmem, rfl⟩

/-- Blank response item used by the C9 witness. -/
def blankRawItem : RawItem :=
  { title := none, url := none, description := none, page_age := none,
    profile := none, language := none, type := none, subtype := none }

/-- Witness for C9: a 9-item response under a present credential is parsed
down to 8 records. -/
theorem claim_C9_witness :
    search (fun _ => none) (some ['k'])
        (fun _ => Except.ok (List.replicate 9 blankRawItem)) ['h', 'i']
      = Except.ok (searchParse (fun _ => none) (List.replicate 9 blankRawItem)) ∧
    (searchParse (fun _ => none) (List.replicate 9 blankRawItem)).length ≤ 8 :=
  ⟨(claim_C9 (fun _ => none) (some ['k'])
      (fun _ => Except.ok (List.replicate 9 blankRawItem)) ['h', 'i']
      (List.replicate 9 blankRawItem) (by decide) rfl).1,
   (claim_C9 (fun _ => none) (some ['k'])
      (fun _ => Except.ok (List.replicate 9 blankRawItem)) ['h', 'i']
      (List.replicate 9 blankRawItem) (by decide) rfl).2.2.1⟩

/-- C10: a response item whose `page_age` field is absent, or whose value
fails to parse as a timestamp (the `except ValueError: pass` path), still
yields a constructed `SearchResult` with `page_age = None`; and no other
field of the record depends on the `page_age` field at all. -/
theorem claim_C10 (strp : List Char → Option PyDateTime) (item : RawItem)
    (h : item.page_age = none
      ∨ ∃ s, item.page_age = some s ∧ strp s = none) :
    (parseItem strp item).page_age = none ∧
    ∀ other : Option (List Char),
      (parseItem strp { item with page_age := other }).title
          = (parseItem strp item).title ∧
      (parseItem strp { item with page_age := other }).url
          = (parseItem strp item).url ∧
      (parseItem strp { item with page_age := other }).description
          = (parseItem strp item).description ∧
      (parseItem strp { item with page_age := other }).profile
          = (parseItem strp item).profile ∧
      (parseItem strp { item with page_age := other }).language
          = (parseItem strp item).language ∧
      (parseItem strp { item with page_age := other }).type
          = (parseItem strp item).type ∧
      (parseItem strp { item with page_age := other }).subtype
          = (parseItem strp item).subtype := by
  constructor
  · rcases h with h | ⟨s, hs, hn⟩
    · simp [parseItem, h]
    · simp [parseItem, hs, hn]
  · intro other
    exact ⟨rfl, rfl, rfl, rfl, rfl, rfl, rfl⟩

/-- Response item with an unparseable `page_age`, used by the C10
witness. -/
def c10Item : RawItem :=
  { title := some ['t'], url := some ['u'], description := none,
    page_age := some ['x'], profile := none, language := none,
    type := none, subtype := none }

/-- Witness for C10: an item whose `page_age` value no parser accepts is
still parsed, with `page_age = None` and its title intact. -/
theorem claim_C10_witness :
    (parseItem (fun _ => none) c10Item).page_age = none ∧
    (parseItem (fun _ => none) { c10Item with page_age := none }).title
      = (parseItem (fun _ => none) c10Item).title :=
  ⟨(claim_C10 (fun _ => none) c10Item (Or.inr ⟨['x'], rfl, rfl⟩)).1,
   ((claim_C10 (fun _ => none) c10Item (Or.inr ⟨['x'], rfl, rfl⟩)).2 none).1⟩
